import Mathlib

/-!
Shallow embedding of the spark-ser7seg driver (SparkFun Serial 7 Segment
Display, Rust crate with three source files: `lib.rs`, `spi.rs`, `i2c.rs`).

Bytes are modelled as `Nat`; wherever the Rust source performs a `u8` cast
(`as u8`) the embedding takes `% 256` explicitly.  The command layer
(`SevenSegInterface` trait default methods in `lib.rs`) is embedded as
functions parameterised over an abstract interface `Iface σ ε`, whose
`send` takes a state and a byte slice and returns the new state together
with a `Result`.  Instantiating the interface with a recording mock
(`recorder`) exposes the exact byte slices passed to `send`, per call, in
order.  The SPI and I2C adapters (`spi.rs`, `i2c.rs`) are embedded over
mock transports whose failure behaviour is given by explicit `Option`
oracles, recording the trace of transport operations.
-/

namespace SparkSer7Seg

/-! ### Command opcodes (`mod command` in `lib.rs`) -/

def CLEAR_DISPLAY : Nat := 0x76

def DECIMAL_CTL : Nat := 0x77

def CURSOR_CTL : Nat := 0x79

def BRIGHTNESS_CTL : Nat := 0x7A

def DIGIT_1_CTL : Nat := 0x7B

def DIGIT_2_CTL : Nat := 0x7C

def DIGIT_3_CTL : Nat := 0x7D

def DIGIT_4_CTL : Nat := 0x7E

def BAUD_RATE_CFG : Nat := 0x7F

def I2C_ADDR_CFG : Nat := 0x80

def FACTORY_RESET : Nat := 0x81

/-! ### Error type (`enum Error<I>` in `lib.rs`) -/

inductive Error (ε : Type) where
  | Interface : ε → Error ε
  | CursorOutOfRange : Error ε
  | DigitOutOfRange : Error ε
deriving DecidableEq

/-! ### PunctuationFlags (`bitflags!` block in `lib.rs`)

A bit-packed `u8` flag set.  The `bitflags` crate gives the named
constants, `bits()`, bitwise union (`|`), intersection (`&`),
complement (`!`, masked to the union of all defined flags) and the
empty set. -/

structure PunctuationFlags where
  bits : Nat
deriving DecidableEq

namespace PunctuationFlags

def DOT_BETWEEN_1_AND_2 : PunctuationFlags := ⟨0b00000001⟩

def DOT_BETWEEN_2_AND_3 : PunctuationFlags := ⟨0b00000010⟩

def DOT_BETWEEN_3_AND_4 : PunctuationFlags := ⟨0b00000100⟩

def DOT_RIGHT_OF_4 : PunctuationFlags := ⟨0b00001000⟩

def DOTS_COLON : PunctuationFlags := ⟨0b00010000⟩

def APOSTROPHE_BETWEEN_3_AND_4 : PunctuationFlags := ⟨0b00100000⟩

def NONE : PunctuationFlags := ⟨0b00000000⟩

/-- `Self::all()`: the union of the bits of the defined flags. -/
def allBits : Nat := 0b00111111

/-- `|` of the bitflags crate. -/
def union (a b : PunctuationFlags) : PunctuationFlags := ⟨a.bits ||| b.bits⟩

/-- `&` of the bitflags crate. -/
def inter (a b : PunctuationFlags) : PunctuationFlags := ⟨a.bits &&& b.bits⟩

/-- `!` of the bitflags crate: bitwise not on the `u8`, masked to `all()`. -/
def compl (a : PunctuationFlags) : PunctuationFlags :=
  ⟨(a.bits ^^^ 0xFF) &&& allBits⟩

/-- `Self::empty()` of the bitflags crate. -/
def empty : PunctuationFlags := ⟨0⟩

/-- Flag values obtainable from the named members via union, intersection,
complement and empty-set construction. -/
inductive Constructible : PunctuationFlags → Prop where
  | dot12 : Constructible DOT_BETWEEN_1_AND_2
  | dot23 : Constructible DOT_BETWEEN_2_AND_3
  | dot34 : Constructible DOT_BETWEEN_3_AND_4
  | dotRight4 : Constructible DOT_RIGHT_OF_4
  | colon : Constructible DOTS_COLON
  | apostrophe : Constructible APOSTROPHE_BETWEEN_3_AND_4
  | noneFlag : Constructible NONE
  | emptySet : Constructible empty
  | union {a b : PunctuationFlags} :
      Constructible a → Constructible b → Constructible (union a b)
  | inter {a b : PunctuationFlags} :
      Constructible a → Constructible b → Constructible (inter a b)
  | compl {a : PunctuationFlags} : Constructible a → Constructible (compl a)

end PunctuationFlags

/-! ### The command layer (`trait SevenSegInterface` default methods)

`Iface σ ε` packages the one required method, `send`, over an abstract
interface state `σ` and interface error `ε`; each Rust default method
becomes a function threading the state. -/

structure Iface (σ ε : Type) where
  send : σ → List Nat → σ × Except (Error ε) Unit

/-- `set_cursor` from `lib.rs`: reject `col >= 4`, else send
`[CURSOR_CTL, col]`. -/
def set_cursor {σ ε : Type} (F : Iface σ ε) (st : σ) (col : Nat) :
    σ × Except (Error ε) Unit :=
  if col ≥ 4 then (st, Except.error Error.CursorOutOfRange)
  else F.send st [CURSOR_CTL, col]

/-- `set_brightness` from `lib.rs`: send `[BRIGHTNESS_CTL, bright]`,
no range check. -/
def set_brightness {σ ε : Type} (F : Iface σ ε) (st : σ) (bright : Nat) :
    σ × Except (Error ε) Unit :=
  F.send st [BRIGHTNESS_CTL, bright]

/-- `clear` from `lib.rs`: send `[CLEAR_DISPLAY]`. -/
def clear {σ ε : Type} (F : Iface σ ε) (st : σ) :
    σ × Except (Error ε) Unit :=
  F.send st [CLEAR_DISPLAY]

/-- `write_digit` from `lib.rs`: reject `digit > 0x0F`, else send
`[digit]`. -/
def write_digit {σ ε : Type} (F : Iface σ ε) (st : σ) (digit : Nat) :
    σ × Except (Error ε) Unit :=
  if digit > 0x0F then (st, Except.error Error.DigitOutOfRange)
  else F.send st [digit]

/-- `write_punctuation` from `lib.rs`: send
`[DECIMAL_CTL, punct_flags.bits()]`. -/
def write_punctuation {σ ε : Type} (F : Iface σ ε) (st : σ)
    (punct_flags : PunctuationFlags) : σ × Except (Error ε) Unit :=
  F.send st [DECIMAL_CTL, punct_flags.bits]

/-- `write_digits` from `lib.rs`: reject `digits.len() > 4` with
`CursorOutOfRange`, then reject any element `> 0x0F` with
`DigitOutOfRange`, else send the slice. -/
def write_digits {σ ε : Type} (F : Iface σ ε) (st : σ) (digits : List Nat) :
    σ × Except (Error ε) Unit :=
  if digits.length > 4 then (st, Except.error Error.CursorOutOfRange)
  else if digits.any (fun d => d > 0x0F) then
    (st, Except.error Error.DigitOutOfRange)
  else F.send st digits

/-- `set_num` from `lib.rs`: reject `num > 9999` with `DigitOutOfRange`;
else `set_cursor(0)?`, then send the four decimal digits
`[(num / 1000) as u8, ((num % 1000) / 100) as u8, ((num % 100) / 10) as u8,
(num % 10) as u8]` as one transfer. -/
def set_num {σ ε : Type} (F : Iface σ ε) (st : σ) (num : Nat) :
    σ × Except (Error ε) Unit :=
  if num > 9999 then (st, Except.error Error.DigitOutOfRange)
  else
    match set_cursor F st 0 with
    | (st1, Except.error e) => (st1, Except.error e)
    | (st1, Except.ok _) =>
        F.send st1
          [(num / 1000) % 256, ((num % 1000) / 100) % 256,
           ((num % 100) / 10) % 256, (num % 10) % 256]

/-- A recording mock interface: the state is the list of byte slices passed
to `send`, in order; `send` always succeeds. -/
def recorder : Iface (List (List Nat)) Empty :=
  ⟨fun tr data => (tr ++ [data], Except.ok ())⟩

/-! ### SPI adapter (`spi.rs`)

`SevSegSpim::send` drives the chip-select pin low, writes the payload on
the SPI bus capturing the result, drives the pin high, and only then
returns the captured write result.  The mock transport records every
transport operation attempted, in order, as a `SpiEvent`; the outcome of
each of the three possible operations of one `send` call is an explicit
`Option` oracle in `SpiMock` (`some e` means that operation fails with
error `e`). -/

inductive SpimError (S G : Type) where
  | Spim : S → SpimError S G
  | Gpio : G → SpimError S G
deriving DecidableEq

inductive SpiEvent where
  | setLow : SpiEvent
  | write : List Nat → SpiEvent
  | setHigh : SpiEvent
deriving DecidableEq

structure SpiMock (S G : Type) where
  lowRes : Option G
  writeRes : Option S
  highRes : Option G

namespace SevSegSpim

/-- `SevSegSpim::send` from `spi.rs`: `csn.set_low()?`, then capture the
result of `spim.write(data)`, then `csn.set_high()?`, then return the
captured result.  Returns the recorded transport trace together with the
Rust return value. -/
def send {S G : Type} (m : SpiMock S G) (data : List Nat) :
    List SpiEvent × Except (Error (SpimError S G)) Unit :=
  match m.lowRes with
  | some e =>
      ([SpiEvent.setLow], Except.error (Error.Interface (SpimError.Gpio e)))
  | none =>
      let ret : Except (Error (SpimError S G)) Unit :=
        match m.writeRes with
        | some e => Except.error (Error.Interface (SpimError.Spim e))
        | none => Except.ok ()
      match m.highRes with
      | some e =>
          ([SpiEvent.setLow, SpiEvent.write data, SpiEvent.setHigh],
           Except.error (Error.Interface (SpimError.Gpio e)))
      | none =>
          ([SpiEvent.setLow, SpiEvent.write data, SpiEvent.setHigh], ret)

end SevSegSpim

/-! ### I2C adapter (`i2c.rs`)

`SevSegI2c` owns a bus handle and a stored `u8` address.  The bus handle
is instantiated with a recording mock: the list of addressed writes
`(address, payload)` performed so far, in order.  The outcome of the one
bus write a `send` performs is an explicit `Option` oracle argument. -/

inductive I2cError (E : Type) where
  | I2c : E → I2cError E
deriving DecidableEq

structure SevSegI2c where
  i2c : List (Nat × List Nat)
  addr : Nat
deriving DecidableEq

namespace SevSegI2c

/-- `SevSegI2c::new` from `i2c.rs`: store the bus handle and
`addr.unwrap_or(0x71)`. -/
def new (i2c : List (Nat × List Nat)) (addr : Option Nat) : SevSegI2c :=
  { i2c := i2c, addr := addr.getD 0x71 }

/-- `SevSegI2c::set_address` from `i2c.rs`: update the stored address;
nothing else. -/
def set_address (d : SevSegI2c) (addr : Nat) : SevSegI2c :=
  { d with addr := addr }

/-- `SevSegI2c::send` from `i2c.rs`: one `i2c.write(self.addr, data)`,
mapping a bus error into `Error::Interface(I2cError::I2c(e))`.  `res` is
the mock bus outcome of that single write. -/
def send {E : Type} (d : SevSegI2c) (res : Option E) (data : List Nat) :
    SevSegI2c × Except (Error (I2cError E)) Unit :=
  ({ d with i2c := d.i2c ++ [(d.addr, data)] },
   match res with
   | some e => Except.error (Error.Interface (I2cError.I2c e))
   | none => Except.ok ())

end SevSegI2c

/-! ### Helper lemmas -/

/-- Evaluating `set_num` against the recording mock, in the in-range case:
the trace is the cursor command followed by the four digit bytes exactly
as the source computes them. -/
theorem set_num_recorder_eq (n : Nat) (h : n ≤ 9999) :
    set_num recorder [] n =
      ([[CURSOR_CTL, 0],
        [(n / 1000) % 256, ((n % 1000) / 100) % 256,
         ((n % 100) / 10) % 256, (n % 10) % 256]],
       Except.ok ()) := by
  unfold set_num
  rw [if_neg (by omega)]
  show recorder.send [[CURSOR_CTL, 0]] _ = _
  simp only [recorder]
  rfl

/-- Values below `2^6` have the two reserved high bits of a byte clear. -/
theorem and_hi_mask_eq_zero {x : Nat} (h : x < 64) : x &&& 0xC0 = 0 := by
  apply Nat.eq_of_testBit_eq
  intro i
  rw [Nat.testBit_and, Nat.zero_testBit]
  rcases Nat.lt_or_ge i 6 with hi | hi
  · have h192 : (0xC0 : Nat).testBit i = false := by
      interval_cases i <;> decide
    simp [h192]
  · have hx : x.testBit i = false :=
      Nat.testBit_lt_two_pow
        (lt_of_lt_of_le h (Nat.pow_le_pow_right (by norm_num : 0 < 2) hi))
    simp [hx]

/-- Every flag value constructible from the named members stays within the
six defined bits. -/
theorem constructible_bits_lt {f : PunctuationFlags}
    (h : PunctuationFlags.Constructible f) : f.bits < 64 := by
  induction h with
  | dot12 => decide
  | dot23 => decide
  | dot34 => decide
  | dotRight4 => decide
  | colon => decide
  | apostrophe => decide
  | noneFlag => decide
  | emptySet => decide
  | union ha hb iha ihb =>
      have := Nat.or_lt_two_pow (show _ < 2 ^ 6 by simpa using iha)
        (show _ < 2 ^ 6 by simpa using ihb)
      simpa [PunctuationFlags.union] using this
  | inter ha hb iha ihb =>
      simp only [PunctuationFlags.inter]
      exact lt_of_le_of_lt Nat.and_le_left iha
  | compl ha iha =>
      simp only [PunctuationFlags.compl, PunctuationFlags.allBits]
      exact lt_of_le_of_lt Nat.and_le_right (by norm_num)

/-! ### Claim theorems -/

/-- C1: for every `n ≤ 9999`, `set_num n` performs exactly two transfers in
order — first `[0x79, 0x00]`, then the four bytes
`[n/1000, (n/100)%10, (n/10)%10, n%10]` as one transfer — and succeeds;
for every `n > 9999` it returns the digit-out-of-range error and sends no
bytes. -/
theorem C1_set_num_two_transfers (n : Nat) :
    (n ≤ 9999 →
      set_num recorder [] n =
        ([[0x79, 0x00],
          [n / 1000, (n / 100) % 10, (n / 10) % 10, n % 10]],
         Except.ok ())) ∧
    (9999 < n →
      set_num recorder [] n = ([], Except.error Error.DigitOutOfRange)) := by
  constructor
  · intro h
    rw [set_num_recorder_eq n h]
    have h1 : (n / 1000) % 256 = n / 1000 := by omega
    have h2 : ((n % 1000) / 100) % 256 = (n / 100) % 10 := by omega
    have h3 : ((n % 100) / 10) % 256 = (n / 10) % 10 := by omega
    have h4 : (n % 10) % 256 = n % 10 := by omega
    rw [h1, h2, h3, h4]
    rfl
  · intro h
    unfold set_num
    rw [if_pos (by omega)]

/-- C1 witness: `set_num 42` emits `[0x79, 0x00]` then `[0, 0, 4, 2]`;
`set_num 10000` fails digit-out-of-range with no traffic. -/
theorem C1_set_num_two_transfers_witness :
    set_num recorder [] 42 =
      ([[0x79, 0x00], [0, 0, 4, 2]], Except.ok ()) ∧
    set_num recorder [] 10000 = ([], Except.error Error.DigitOutOfRange) :=
  ⟨(C1_set_num_two_transfers 42).1 (by norm_num),
   (C1_set_num_two_transfers 10000).2 (by norm_num)⟩

/-- C2: `write_digits s` fails cursor-out-of-range when `|s| > 4`, fails
digit-out-of-range when some element exceeds 15, both with no bytes sent;
otherwise it emits exactly `s` as a single transfer. -/
theorem C2_write_digits_validation (s : List Nat) :
    (4 < s.length →
      write_digits recorder [] s =
        ([], Except.error Error.CursorOutOfRange)) ∧
    (s.length ≤ 4 → (∃ d ∈ s, 15 < d) →
      write_digits recorder [] s =
        ([], Except.error Error.DigitOutOfRange)) ∧
    (s.length ≤ 4 → (∀ d ∈ s, d ≤ 15) →
      write_digits recorder [] s = ([s], Except.ok ())) := by
  refine ⟨fun h => ?_, fun h hex => ?_, fun h hall => ?_⟩
  · unfold write_digits
    rw [if_pos (by omega)]
  · have hany : s.any (fun d => d > 0x0F) = true := by
      rcases hex with ⟨d, hd, hd15⟩
      simp only [List.any_eq_true, decide_eq_true_eq]
      exact ⟨d, hd, hd15⟩
    unfold write_digits
    rw [if_neg (by omega), if_pos hany]
  · have hany : s.any (fun d => d > 0x0F) = false := by
      simp only [List.any_eq_false, decide_eq_true_eq, not_lt]
      exact hall
    unfold write_digits
    rw [if_neg (by omega), if_neg (by simp [hany])]
    rfl

/-- C2 witness: a 5-element slice fails cursor-out-of-range, a slice
holding 16 fails digit-out-of-range, and `[1, 2]` is sent verbatim. -/
theorem C2_write_digits_validation_witness :
    write_digits recorder [] [1, 2, 3, 4, 5] =
      ([], Except.error Error.CursorOutOfRange) ∧
    write_digits recorder [] [16] =
      ([], Except.error Error.DigitOutOfRange) ∧
    write_digits recorder [] [1, 2] = ([[1, 2]], Except.ok ()) :=
  ⟨(C2_write_digits_validation [1, 2, 3, 4, 5]).1 (by norm_num),
   (C2_write_digits_validation [16]).2.1 (by norm_num)
     ⟨16, by norm_num, by norm_num⟩,
   (C2_write_digits_validation [1, 2]).2.2 (by norm_num) (by decide)⟩

/-- C9: when a slice violates both `write_digits` checks at once (length
greater than 4 and an element above 15), the length check wins and the
result is the cursor-out-of-range error. -/
theorem C9_length_check_precedence (s : List Nat) (h1 : 4 < s.length)
    (h2 : ∃ d ∈ s, 15 < d) :
    write_digits recorder [] s = ([], Except.error Error.CursorOutOfRange) := by
  unfold write_digits
  rw [if_pos (by omega)]

/-- C9 witness: five copies of 16 trip both checks and yield
cursor-out-of-range. -/
theorem C9_length_check_precedence_witness :
    write_digits recorder [] [16, 16, 16, 16, 16] =
      ([], Except.error Error.CursorOutOfRange) :=
  C9_length_check_precedence [16, 16, 16, 16, 16] (by norm_num)
    ⟨16, by norm_num, by norm_num⟩

/-- C10: for `n ≤ 9999`, every byte of the digit transfer emitted by
`set_num` is at most 9, hence inside the 0x00–0x0F raw-digit range and
below every command opcode (the least opcode is 0x76). -/
theorem C10_set_num_digit_bytes_le_nine (n : Nat) (h : n ≤ 9999) :
    ∀ b ∈ (set_num recorder [] n).1.getD 1 [], b ≤ 9 ∧ b < 0x76 := by
  rw [set_num_recorder_eq n h]
  intro b hb
  simp only [List.getD, List.get?_cons_succ, List.get?_cons_zero,
    Option.getD_some, List.mem_cons, List.not_mem_nil, or_false] at hb
  rcases hb with hb | hb | hb | hb <;> omega

/-- C10 witness: the digit transfer of `set_num 42` contains the byte 4,
which is at most 9 and below 0x76. -/
theorem C10_set_num_digit_bytes_le_nine_witness : (4 : Nat) ≤ 9 ∧ (4 : Nat) < 0x76 :=
  C10_set_num_digit_bytes_le_nine 42 (by norm_num) 4 (by decide)

/-- C3 counterexample: `write_digits` on the empty slice passes its
validation (no error is returned) and hands the empty byte slice — of
length 0 — to `send`, so the command layer does send an empty slice. -/
theorem C3_counterexample_empty_slice :
    write_digits recorder [] [] = ([[]], Except.ok ()) ∧
    ¬ (∀ l ∈ (write_digits recorder [] ([] : List Nat)).1, 1 ≤ l.length) := by
  constructor
  · rfl
  · intro hall
    have h0 : ([] : List Nat) ∈ (write_digits recorder [] ([] : List Nat)).1 := by
      show ([] : List Nat) ∈ [([] : List Nat)]
      simp
    have := hall [] h0
    simp at this

/-- C3 amended: every byte slice the command layer passes to `send` on a
non-failing argument has length at least 1, except that `write_digits`
applied to the empty slice passes the empty slice; equivalently,
`write_digits` keeps the invariant exactly when its input is nonempty. -/
theorem C3_sent_slices_nonempty :
    (∀ col, ∀ l ∈ (set_cursor recorder [] col).1, 1 ≤ l.length) ∧
    (∀ b, ∀ l ∈ (set_brightness recorder [] b).1, 1 ≤ l.length) ∧
    (∀ l ∈ (clear recorder []).1, 1 ≤ l.length) ∧
    (∀ d, ∀ l ∈ (write_digit recorder [] d).1, 1 ≤ l.length) ∧
    (∀ f, ∀ l ∈ (write_punctuation recorder [] f).1, 1 ≤ l.length) ∧
    (∀ ds : List Nat, ds ≠ [] →
      ∀ l ∈ (write_digits recorder [] ds).1, 1 ≤ l.length) ∧
    (∀ n, ∀ l ∈ (set_num recorder [] n).1, 1 ≤ l.length) := by
  refine ⟨fun col l hl => ?_, fun b l hl => ?_, fun l hl => ?_,
    fun d l hl => ?_, fun f l hl => ?_, fun ds hds l hl => ?_,
    fun n l hl => ?_⟩
  · unfold set_cursor at hl
    by_cases hcol : col ≥ 4
    · rw [if_pos hcol] at hl
      simp at hl
    · rw [if_neg hcol] at hl
      simp only [recorder, List.nil_append, List.mem_singleton] at hl
      subst hl
      simp
  · simp only [set_brightness, recorder, List.nil_append,
      List.mem_singleton] at hl
    subst hl
    simp
  · simp only [clear, recorder, List.nil_append, List.mem_singleton] at hl
    subst hl
    simp
  · unfold write_digit at hl
    by_cases hd : d > 0x0F
    · rw [if_pos hd] at hl
      simp at hl
    · rw [if_neg hd] at hl
      simp only [recorder, List.nil_append, List.mem_singleton] at hl
      subst hl
      simp
  · simp only [write_punctuation, recorder, List.nil_append,
      List.mem_singleton] at hl
    subst hl
    simp
  · unfold write_digits at hl
    by_cases h4 : ds.length > 4
    · rw [if_pos h4] at hl
      simp at hl
    · rw [if_neg h4] at hl
      by_cases hany : ds.any (fun d => d > 0x0F)
      · rw [if_pos hany] at hl
        simp at hl
      · rw [if_neg hany] at hl
        simp only [recorder, List.nil_append, List.mem_singleton] at hl
        subst hl
        exact List.length_pos.mpr hds
  · by_cases h9 : n ≤ 9999
    · rw [set_num_recorder_eq n h9] at hl
      simp only [List.mem_cons, List.not_mem_nil, or_false] at hl
      rcases hl with hl | hl
      · subst hl; simp
      · subst hl; simp
    · unfold set_num at hl
      rw [if_pos (by omega)] at hl
      simp at hl

/-- C3 amended witness: `write_digits [3]` on the nonempty input `[3]`
passes only slices of length at least 1 to `send`. -/
theorem C3_sent_slices_nonempty_witness : 1 ≤ ([3] : List Nat).length :=
  C3_sent_slices_nonempty.2.2.2.2.2.1 [3] (by simp) [3] (by decide)

/-- C8: for every flag value constructible from the named members via
union, intersection, complement and empty-set construction,
`write_punctuation f` emits exactly the single transfer
`[0x77, f.bits]`, and the transmitted second byte has its upper two
(reserved) bits zero. -/
theorem C8_write_punctuation_exact (f : PunctuationFlags)
    (h : PunctuationFlags.Constructible f) :
    write_punctuation recorder [] f =
      ([[0x77, f.bits]], Except.ok ()) ∧
    f.bits &&& 0xC0 = 0 := by
  constructor
  · rfl
  · exact and_hi_mask_eq_zero (constructible_bits_lt h)

/-- C8 witness: the colon dot pattern united with the leftmost dot has
bits 0x11, is transmitted as `[0x77, 0x11]`, and its reserved bits are
zero. -/
theorem C8_write_punctuation_exact_witness :
    write_punctuation recorder []
        (PunctuationFlags.union PunctuationFlags.DOTS_COLON
          PunctuationFlags.DOT_BETWEEN_1_AND_2) =
      ([[0x77, 0x11]], Except.ok ()) ∧
    (0x11 : Nat) &&& 0xC0 = 0 :=
  C8_write_punctuation_exact
    (PunctuationFlags.union PunctuationFlags.DOTS_COLON
      PunctuationFlags.DOT_BETWEEN_1_AND_2)
    (PunctuationFlags.Constructible.union
      PunctuationFlags.Constructible.colon
      PunctuationFlags.Constructible.dot12)

/-- C4: whenever the SPI adapter's `send` returns success, the transport
trace is exactly chip-select low, then the bus write of the payload, then
chip-select high — in that order and nothing else. -/
theorem C4_spi_success_trace {S G : Type} (m : SpiMock S G) (data : List Nat)
    (h : (SevSegSpim.send m data).2 = Except.ok ()) :
    (SevSegSpim.send m data).1 =
      [SpiEvent.setLow, SpiEvent.write data, SpiEvent.setHigh] := by
  unfold SevSegSpim.send at h ⊢
  rcases hlow : m.lowRes with _ | g
  · rcases hhigh : m.highRes with _ | g
    · simp [hlow, hhigh]
    · simp [hlow, hhigh] at h
  · simp [hlow] at h

/-- C4 witness: with an all-succeeding mock transport, sending `[0x76]`
records low, write, high. -/
theorem C4_spi_success_trace_witness :
    (SevSegSpim.send (⟨none, none, none⟩ : SpiMock Unit Unit) [0x76]).1 =
      [SpiEvent.setLow, SpiEvent.write [0x76], SpiEvent.setHigh] :=
  C4_spi_success_trace ⟨none, none, none⟩ [0x76] rfl

/-- C5: after a successful chip-select assertion the SPI adapter always
drives chip-select high again — in particular a failed bus write still
deasserts before the bus error surfaces — while a failed assertion
returns the GPIO error with no write and no deassertion attempt. -/
theorem C5_spi_cs_restoration {S G : Type} (m : SpiMock S G)
    (data : List Nat) :
    (∀ g, m.lowRes = some g →
      SevSegSpim.send m data =
        ([SpiEvent.setLow],
         Except.error (Error.Interface (SpimError.Gpio g)))) ∧
    (m.lowRes = none →
      (SevSegSpim.send m data).1 =
        [SpiEvent.setLow, SpiEvent.write data, SpiEvent.setHigh]) ∧
    (∀ e, m.lowRes = none → m.writeRes = some e → m.highRes = none →
      SevSegSpim.send m data =
        ([SpiEvent.setLow, SpiEvent.write data, SpiEvent.setHigh],
         Except.error (Error.Interface (SpimError.Spim e)))) := by
  refine ⟨fun g hg => ?_, fun hlow => ?_, fun e hlow hw hhigh => ?_⟩
  · unfold SevSegSpim.send
    rw [hg]
  · unfold SevSegSpim.send
    rw [hlow]
    rcases hhigh : m.highRes with _ | g <;> simp
  · unfold SevSegSpim.send
    rw [hlow, hw, hhigh]

/-- C5 witness: with a mock whose bus write fails, `send [7]` records low,
write, high and surfaces the bus error; with a mock whose assertion
fails, only low is recorded and the GPIO error surfaces. -/
theorem C5_spi_cs_restoration_witness :
    SevSegSpim.send (⟨none, some 3, none⟩ : SpiMock Nat Nat) [7] =
      ([SpiEvent.setLow, SpiEvent.write [7], SpiEvent.setHigh],
       Except.error (Error.Interface (SpimError.Spim 3))) ∧
    SevSegSpim.send (⟨some 5, none, none⟩ : SpiMock Nat Nat) [7] =
      ([SpiEvent.setLow],
       Except.error (Error.Interface (SpimError.Gpio 5))) :=
  ⟨(C5_spi_cs_restoration ⟨none, some 3, none⟩ [7]).2.2 3 rfl rfl rfl,
   (C5_spi_cs_restoration ⟨some 5, none, none⟩ [7]).1 5 rfl⟩

/-- C6: when the chip-select deassertion after the write fails, the SPI
adapter returns that GPIO error, discarding the write result — whatever
the write result was. -/
theorem C6_spi_deassert_error_wins {S G : Type} (m : SpiMock S G)
    (data : List Nat) (g : G) (hlow : m.lowRes = none)
    (hhigh : m.highRes = some g) :
    (SevSegSpim.send m data).2 =
      Except.error (Error.Interface (SpimError.Gpio g)) := by
  unfold SevSegSpim.send
  rw [hlow, hhigh]

/-- C6 witness: a failing deassertion surfaces the GPIO error both when
the write succeeded and when the write failed. -/
theorem C6_spi_deassert_error_wins_witness :
    (SevSegSpim.send (⟨none, none, some 9⟩ : SpiMock Nat Nat) [1]).2 =
      Except.error (Error.Interface (SpimError.Gpio 9)) ∧
    (SevSegSpim.send (⟨none, some 2, some 9⟩ : SpiMock Nat Nat) [1]).2 =
      Except.error (Error.Interface (SpimError.Gpio 9)) :=
  ⟨C6_spi_deassert_error_wins ⟨none, none, some 9⟩ [1] 9 rfl rfl,
   C6_spi_deassert_error_wins ⟨none, some 2, some 9⟩ [1] 9 rfl rfl⟩

/-- C7: every I2C `send` performs exactly one addressed write, at the
stored address, with the caller's payload, leaving the address unchanged;
the constructor defaults the address to 0x71 when given none; and
`set_address` performs no bus traffic and changes the address used only
by subsequent sends. -/
theorem C7_i2c_framing (E : Type) :
    (∀ (d : SevSegI2c) (res : Option E) (data : List Nat),
      (SevSegI2c.send d res data).1.i2c = d.i2c ++ [(d.addr, data)] ∧
      (SevSegI2c.send d res data).1.addr = d.addr) ∧
    (∀ i2c, (SevSegI2c.new i2c none).addr = 0x71) ∧
    (∀ (d : SevSegI2c) (a : Nat),
      (SevSegI2c.set_address d a).i2c = d.i2c ∧
      (SevSegI2c.set_address d a).addr = a ∧
      (∀ (res : Option E) (data : List Nat),
        (SevSegI2c.send (SevSegI2c.set_address d a) res data).1.i2c =
          d.i2c ++ [(a, data)])) := by
  refine ⟨fun d res data => ⟨rfl, rfl⟩, fun i2c => rfl,
    fun d a => ⟨rfl, rfl, fun res data => rfl⟩⟩

end SparkSer7Seg
